import Mathlib

/-!
Verification of the premium/spread computation core of `stablecoin_premiums`
(`src/stablecoin_premiums/compute.py`).

The module operates on Python floats.  We embed the numeric path over exact
rationals (`ℚ`): every finite float is a rational, and the claims under
scrutiny concern values far from any binary-rounding boundary, so the
rational model is faithful at the tolerances the spec states.  The special
float values `nan`, `inf` and `-inf` — which `float(value)` accepts and which
then reach the comparison `v <= 0` — are modelled explicitly, with Python's
comparison semantics (`nan <= 0` and `inf <= 0` are `False`, `-inf <= 0` is
`True`).
-/

namespace StablecoinPremiums

/-- A Python float value as it reaches `_validate_positive` after a successful
`float(value)` conversion: NaN, a signed infinity, or a finite value modelled
as an exact rational. -/
inductive PyFloat where
  | nan : PyFloat
  | negInf : PyFloat
  | posInf : PyFloat
  | fin : ℚ → PyFloat
deriving DecidableEq

/-- Python's comparison `v <= 0` on a float: `False` for NaN (IEEE-754
unordered comparison), `False` for `+inf`, `True` for `-inf`, and the usual
order on finite values. -/
def PyFloat.leZero : PyFloat → Bool
  | .nan => false
  | .negInf => true
  | .posInf => false
  | .fin q => decide (q ≤ 0)

/-- The argument passed to `_validate_positive`: Python `None`, a value on
which `float(value)` raises `TypeError`/`ValueError` (non-numeric), or a
float. -/
inductive PyValue where
  | none : PyValue
  | nonNumeric : String → PyValue
  | float : PyFloat → PyValue
deriving DecidableEq

/-- Decimal rendering of a float as used in the f-string
`f"{name} must be > 0; got {v}"`.  For the integral values exercised by the
spec's examples (e.g. `0.0`) this coincides with Python's `str`. -/
def pyFloatStr : PyFloat → String
  | .nan => "nan"
  | .negInf => "-inf"
  | .posInf => "inf"
  | .fin q => if q.den = 1 then toString q.num ++ ".0"
      else toString q.num ++ "/" ++ toString q.den

/-- The `ValueError` raised by `_validate_positive`, one constructor per
`raise` site, carrying the data interpolated into the message. -/
inductive InvalidRateError where
  | mustNotBeNone : String → InvalidRateError
  | mustBeANumber : String → InvalidRateError
  | mustBePositive : String → PyFloat → InvalidRateError
deriving DecidableEq

/-- The message string of each `raise ValueError(f"...")` in
`_validate_positive`. -/
def InvalidRateError.message : InvalidRateError → String
  | .mustNotBeNone name => name ++ " must not be None"
  | .mustBeANumber name => name ++ " must be a number"
  | .mustBePositive name got => name ++ " must be > 0; got " ++ pyFloatStr got

/-- `_validate_positive(name, value)` from `compute.py`: raise on `None`, on
conversion failure, and on `v <= 0`; otherwise return normally. -/
def validate_positive (name : String) (value : PyValue) :
    Except InvalidRateError Unit :=
  match value with
  | .none => .error (.mustNotBeNone name)
  | .nonNumeric _ => .error (.mustBeANumber name)
  | .float v =>
      if v.leZero then .error (.mustBePositive name v) else .ok ()

/-- `compute_premium(numerator_rate, denominator_rate)` from `compute.py` on
finite float inputs: validate both, then `(numerator_rate / denominator_rate
- 1.0) * 100.0`. -/
def compute_premium (numerator_rate denominator_rate : ℚ) :
    Except InvalidRateError ℚ := do
  validate_positive "numerator_rate" (.float (.fin numerator_rate))
  validate_positive "denominator_rate" (.float (.fin denominator_rate))
  pure ((numerator_rate / denominator_rate - 1) * 100)

/-- `compute_spread(buy_rate, sell_rate)` from `compute.py` on finite float
inputs: validate both, then `((buy_rate - sell_rate) / sell_rate) * 100.0`. -/
def compute_spread (buy_rate sell_rate : ℚ) : Except InvalidRateError ℚ := do
  validate_positive "buy_rate" (.float (.fin buy_rate))
  validate_positive "sell_rate" (.float (.fin sell_rate))
  pure ((buy_rate - sell_rate) / sell_rate * 100)

/-- Round-half-to-even to an integer, the rule implemented by Python's
built-in `round`. -/
def rndHalfEven (x : ℚ) : ℤ :=
  if x - ⌊x⌋ < 1/2 then ⌊x⌋
  else if 1/2 < x - ⌊x⌋ then ⌊x⌋ + 1
  else if ⌊x⌋ % 2 = 0 then ⌊x⌋ else ⌊x⌋ + 1

/-- Python's `round(value, ndigits)` for a non-negative digit count (the
spec's input contract restricts `decimals` to non-negative integers). -/
def pyRound (value : ℚ) (ndigits : ℕ) : ℚ :=
  (rndHalfEven (value * 10 ^ ndigits) : ℚ) / 10 ^ ndigits

/-- `_maybe_round(value, decimals)` from `compute.py`: return `value` as-is
when `decimals` is `None`, else `round(value, int(decimals))`. -/
def maybe_round (value : ℚ) : Option ℕ → ℚ
  | Option.none => value
  | Option.some d => pyRound value d

/-- The frozen dataclass `Premiums` from `compute.py`. -/
structure Premiums where
  stablecoin_sell_premium : ℚ
  stablecoin_buy_premium : ℚ
  stablecoin_buy_sell_spread : ℚ
deriving DecidableEq

/-- `compute_premiums(sell_rate, buy_rate, fx_bid, fx_ask, decimals)` from
`compute.py` on finite float inputs: validate the four inputs in order,
compute the three raw metrics, optionally round each, and build the
result. -/
def compute_premiums (sell_rate buy_rate fx_bid fx_ask : ℚ)
    (decimals : Option ℕ) : Except InvalidRateError Premiums := do
  validate_positive "sell_rate" (.float (.fin sell_rate))
  validate_positive "buy_rate" (.float (.fin buy_rate))
  validate_positive "fx_bid" (.float (.fin fx_bid))
  validate_positive "fx_ask" (.float (.fin fx_ask))
  let sell_premium ← compute_premium sell_rate fx_bid
  let buy_premium ← compute_premium buy_rate fx_ask
  let spread ← compute_spread buy_rate sell_rate
  pure { stablecoin_sell_premium := maybe_round sell_premium decimals
         stablecoin_buy_premium := maybe_round buy_premium decimals
         stablecoin_buy_sell_spread := maybe_round spread decimals }

/-! ### Characterisation lemmas -/

lemma validate_positive_ok (name : String) (q : ℚ) (h : 0 < q) :
    validate_positive name (.float (.fin q)) = .ok () := by
  simp [validate_positive, PyFloat.leZero, not_le.mpr h]

lemma validate_positive_err (name : String) (q : ℚ) (h : q ≤ 0) :
    validate_positive name (.float (.fin q)) =
      .error (.mustBePositive name (.fin q)) := by
  simp [validate_positive, PyFloat.leZero, h]

lemma compute_premium_spec (o r : ℚ) :
    compute_premium o r =
      if o ≤ 0 then .error (.mustBePositive "numerator_rate" (.fin o))
      else if r ≤ 0 then
        .error (.mustBePositive "denominator_rate" (.fin r))
      else .ok ((o / r - 1) * 100) := by
  by_cases h : o ≤ 0
  · simp [compute_premium, validate_positive_err _ _ h, h, Bind.bind, Except.bind, Functor.map, Except.map, Pure.pure, Except.pure]
  · by_cases h' : r ≤ 0
    · simp [compute_premium, validate_positive_ok _ _ (not_le.mp h),
        validate_positive_err _ _ h', h, h', Bind.bind, Except.bind, Functor.map, Except.map, Pure.pure, Except.pure]
    · simp [compute_premium, validate_positive_ok _ _ (not_le.mp h),
        validate_positive_ok _ _ (not_le.mp h'), h, h', Bind.bind, Except.bind, Functor.map, Except.map, Pure.pure, Except.pure]

lemma compute_spread_spec (b s : ℚ) :
    compute_spread b s =
      if b ≤ 0 then .error (.mustBePositive "buy_rate" (.fin b))
      else if s ≤ 0 then .error (.mustBePositive "sell_rate" (.fin s))
      else .ok ((b - s) / s * 100) := by
  by_cases h : b ≤ 0
  · simp [compute_spread, validate_positive_err _ _ h, h, Bind.bind, Except.bind, Functor.map, Except.map, Pure.pure, Except.pure]
  · by_cases h' : s ≤ 0
    · simp [compute_spread, validate_positive_ok _ _ (not_le.mp h),
        validate_positive_err _ _ h', h, h', Bind.bind, Except.bind, Functor.map, Except.map, Pure.pure, Except.pure]
    · simp [compute_spread, validate_positive_ok _ _ (not_le.mp h),
        validate_positive_ok _ _ (not_le.mp h'), h, h', Bind.bind, Except.bind, Functor.map, Except.map, Pure.pure, Except.pure]

lemma compute_premiums_spec (s b bid ask : ℚ) (dec : Option ℕ) :
    compute_premiums s b bid ask dec =
      if s ≤ 0 then .error (.mustBePositive "sell_rate" (.fin s))
      else if b ≤ 0 then .error (.mustBePositive "buy_rate" (.fin b))
      else if bid ≤ 0 then .error (.mustBePositive "fx_bid" (.fin bid))
      else if ask ≤ 0 then .error (.mustBePositive "fx_ask" (.fin ask))
      else .ok { stablecoin_sell_premium := maybe_round ((s / bid - 1) * 100) dec
                 stablecoin_buy_premium := maybe_round ((b / ask - 1) * 100) dec
                 stablecoin_buy_sell_spread :=
                   maybe_round ((b - s) / s * 100) dec } := by
  by_cases hs : s ≤ 0
  · simp [compute_premiums, validate_positive_err _ _ hs, hs, Bind.bind, Except.bind, Functor.map, Except.map, Pure.pure, Except.pure]
  · by_cases hb : b ≤ 0
    · simp [compute_premiums, validate_positive_ok _ _ (not_le.mp hs),
        validate_positive_err _ _ hb, hs, hb, Bind.bind, Except.bind, Functor.map, Except.map, Pure.pure, Except.pure]
    · by_cases hbid : bid ≤ 0
      · simp [compute_premiums, validate_positive_ok _ _ (not_le.mp hs),
          validate_positive_ok _ _ (not_le.mp hb),
          validate_positive_err _ _ hbid, hs, hb, hbid, Bind.bind, Except.bind, Functor.map, Except.map, Pure.pure, Except.pure]
      · by_cases hask : ask ≤ 0
        · simp [compute_premiums, validate_positive_ok _ _ (not_le.mp hs),
            validate_positive_ok _ _ (not_le.mp hb),
            validate_positive_ok _ _ (not_le.mp hbid),
            validate_positive_err _ _ hask, hs, hb, hbid, hask, Bind.bind, Except.bind, Functor.map, Except.map, Pure.pure, Except.pure]
        · simp [compute_premiums, validate_positive_ok _ _ (not_le.mp hs),
            validate_positive_ok _ _ (not_le.mp hb),
            validate_positive_ok _ _ (not_le.mp hbid),
            validate_positive_ok _ _ (not_le.mp hask),
            compute_premium_spec, compute_spread_spec,
            hs, hb, hbid, hask, Bind.bind, Except.bind, Functor.map, Except.map, Pure.pure, Except.pure]

lemma compute_premium_err_of_nonpos (o r : ℚ) (h : o ≤ 0 ∨ r ≤ 0) :
    ∃ e, compute_premium o r = Except.error e := by
  rw [compute_premium_spec]
  split_ifs with h1 h2
  · exact ⟨_, rfl⟩
  · exact ⟨_, rfl⟩
  · rcases h with h | h
    · exact (h1 h).elim
    · exact (h2 h).elim

lemma compute_spread_err_of_nonpos (b s : ℚ) (h : b ≤ 0 ∨ s ≤ 0) :
    ∃ e, compute_spread b s = Except.error e := by
  rw [compute_spread_spec]
  split_ifs with h1 h2
  · exact ⟨_, rfl⟩
  · exact ⟨_, rfl⟩
  · rcases h with h | h
    · exact (h1 h).elim
    · exact (h2 h).elim

lemma compute_premiums_err_of_nonpos (s b bid ask : ℚ) (dec : Option ℕ)
    (h : s ≤ 0 ∨ b ≤ 0 ∨ bid ≤ 0 ∨ ask ≤ 0) :
    ∃ e, compute_premiums s b bid ask dec = Except.error e := by
  rw [compute_premiums_spec]
  split_ifs with h1 h2 h3 h4
  · exact ⟨_, rfl⟩
  · exact ⟨_, rfl⟩
  · exact ⟨_, rfl⟩
  · exact ⟨_, rfl⟩
  · rcases h with h | h | h | h
    · exact (h1 h).elim
    · exact (h2 h).elim
    · exact (h3 h).elim
    · exact (h4 h).elim

lemma rndHalfEven_ge_one (x : ℚ) (hx : 1/2 < x) : 1 ≤ rndHalfEven x := by
  unfold rndHalfEven
  have h0 : (0:ℤ) ≤ ⌊x⌋ := Int.floor_nonneg.mpr (by linarith)
  have hfl : (⌊x⌋ : ℚ) ≤ x := Int.floor_le x
  have hlt : x < ⌊x⌋ + 1 := Int.lt_floor_add_one x
  split_ifs with h1 h2 h3
  · have hq : (0:ℚ) < ⌊x⌋ := by linarith
    have hz : (0:ℤ) < ⌊x⌋ := by exact_mod_cast hq
    omega
  · omega
  · have hq : (0:ℚ) < ⌊x⌋ := by linarith
    have hz : (0:ℤ) < ⌊x⌋ := by exact_mod_cast hq
    omega
  · omega

lemma rndHalfEven_le_neg_one (x : ℚ) (hx : x < -(1/2)) : rndHalfEven x ≤ -1 := by
  unfold rndHalfEven
  have hfl : (⌊x⌋ : ℚ) ≤ x := Int.floor_le x
  have hlt : x < ⌊x⌋ + 1 := Int.lt_floor_add_one x
  have hneg : ⌊x⌋ ≤ -1 := by
    have hq : (⌊x⌋:ℚ) < 0 := by linarith
    have hz : ⌊x⌋ < 0 := by exact_mod_cast hq
    omega
  split_ifs with h1 h2 h3
  · exact hneg
  · have hq : (⌊x⌋:ℚ) < -1 := by linarith
    have hz : ⌊x⌋ < -1 := by exact_mod_cast hq
    omega
  · exact hneg
  · have hq : (⌊x⌋:ℚ) < -1 := by linarith
    have hz : ⌊x⌋ < -1 := by exact_mod_cast hq
    omega

lemma rndHalfEven_eq_floor (x : ℚ) (h : x - ⌊x⌋ < 1/2) :
    rndHalfEven x = ⌊x⌋ := by
  unfold rndHalfEven
  rw [if_pos h]

lemma rndHalfEven_eq_floor_add_one (x : ℚ) (h : 1/2 < x - ⌊x⌋) :
    rndHalfEven x = ⌊x⌋ + 1 := by
  unfold rndHalfEven
  rw [if_neg (by linarith), if_pos h]

lemma rndHalfEven_tie_even (x : ℚ) (h : x - ⌊x⌋ = 1/2) (he : ⌊x⌋ % 2 = 0) :
    rndHalfEven x = ⌊x⌋ := by
  unfold rndHalfEven
  rw [if_neg (by rw [h]; exact lt_irrefl _), if_neg (by rw [h]; exact lt_irrefl _),
    if_pos he]

lemma pyRound_eq_of_lt (v : ℚ) (d : ℕ) (n : ℤ) (hf : ⌊v * 10 ^ d⌋ = n)
    (h : v * 10 ^ d - n < 1/2) : pyRound v d = (n : ℚ) / 10 ^ d := by
  unfold pyRound
  rw [rndHalfEven_eq_floor _ (by rw [hf]; exact h), hf]

lemma pyRound_eq_of_gt (v : ℚ) (d : ℕ) (n : ℤ) (hf : ⌊v * 10 ^ d⌋ = n)
    (h : 1/2 < v * 10 ^ d - n) : pyRound v d = ((n + 1 : ℤ) : ℚ) / 10 ^ d := by
  unfold pyRound
  rw [rndHalfEven_eq_floor_add_one _ (by rw [hf]; exact h), hf]

lemma pyRound_eq_of_tie_even (v : ℚ) (d : ℕ) (n : ℤ) (hf : ⌊v * 10 ^ d⌋ = n)
    (h : v * 10 ^ d - n = 1/2) (he : n % 2 = 0) :
    pyRound v d = (n : ℚ) / 10 ^ d := by
  unfold pyRound
  rw [rndHalfEven_tie_even _ (by rw [hf]; exact h) (by rw [hf]; exact he), hf]

lemma pyRound_concrete_sell : pyRound (4575/428) 2 = 1069/100 := by
  rw [pyRound_eq_of_gt (4575/428) 2 1068 (by rw [Int.floor_eq_iff]; norm_num)
    (by norm_num)]
  norm_num

lemma pyRound_concrete_buy : pyRound (1975/214) 2 = 923/100 := by
  rw [pyRound_eq_of_gt (1975/214) 2 922 (by rw [Int.floor_eq_iff]; norm_num)
    (by norm_num)]
  norm_num

lemma pyRound_concrete_spread : pyRound (-(500/379)) 2 = -(33/25) := by
  rw [pyRound_eq_of_lt (-(500/379)) 2 (-132) (by rw [Int.floor_eq_iff]; norm_num)
    (by norm_num)]
  norm_num

lemma pyRound_half_zero : pyRound (1/2) 0 = 0 := by
  rw [pyRound_eq_of_tie_even (1/2) 0 0 (by rw [Int.floor_eq_iff]; norm_num)
    (by norm_num) (by norm_num)]
  norm_num

/-! ### Claim theorems -/

/-- Claim C1: for all positive rational inputs, `compute_premiums` called
without `decimals` returns a result whose three fields equal, unrounded,
`compute_premium(sell_rate, fx_bid)`, `compute_premium(buy_rate, fx_ask)`
and `compute_spread(buy_rate, sell_rate)` respectively. -/
theorem c1_composition (s b bid ask : ℚ) (hs : 0 < s) (hb : 0 < b)
    (hbid : 0 < bid) (hask : 0 < ask) :
    ∃ sp bp sd,
      compute_premium s bid = Except.ok sp ∧
      compute_premium b ask = Except.ok bp ∧
      compute_spread b s = Except.ok sd ∧
      compute_premiums s b bid ask Option.none = Except.ok ⟨sp, bp, sd⟩ := by
  refine ⟨(s / bid - 1) * 100, (b / ask - 1) * 100, (b - s) / s * 100,
    ?_, ?_, ?_, ?_⟩ <;>
    simp [compute_premium_spec, compute_spread_spec, compute_premiums_spec,
      maybe_round, hs.not_le, hb.not_le, hbid.not_le, hask.not_le]

/-- Witness for C1 at the spec's example rates. -/
theorem c1_composition_witness :
    ∃ sp bp sd,
      compute_premium (1895/100) (1712/100) = Except.ok sp ∧
      compute_premium (1870/100) (1712/100) = Except.ok bp ∧
      compute_spread (1870/100) (1895/100) = Except.ok sd ∧
      compute_premiums (1895/100) (1870/100) (1712/100) (1712/100)
        Option.none = Except.ok ⟨sp, bp, sd⟩ :=
  c1_composition (1895/100) (1870/100) (1712/100) (1712/100)
    (by norm_num) (by norm_num) (by norm_num) (by norm_num)

/-- Claim C2 counterexample: `compute_premium(18.95, 17.12)` equals
`4575/428 = 10.68925233644859813…`, which is NOT within `1e-9` relative
tolerance of the value `10.69364161849711` asserted by the spec (the spec's
example value does not come from its own formula). -/
theorem c2_counterexample :
    compute_premium (1895/100) (1712/100) = Except.ok (4575/428) ∧
      1/1000000000 * (1069364161849711/100000000000000) <
        |(4575/428 : ℚ) - 1069364161849711/100000000000000| := by
  constructor
  · norm_num [compute_premium_spec]
  · rw [abs_of_nonpos (by norm_num)]
    norm_num

/-- Claim C2 (amended): for positive rationals, `compute_premium(o, r)`
returns `((o / r) - 1) * 100`; the result is positive exactly when `o`
exceeds `r`; and `compute_premium(18.95, 17.12) = 4575/428`, which is within
`1e-9` relative tolerance of `10.689252336448598`. -/
theorem c2_premium_formula (o r : ℚ) (ho : 0 < o) (hr : 0 < r) :
    compute_premium o r = Except.ok ((o / r - 1) * 100) ∧
      (0 < (o / r - 1) * 100 ↔ r < o) ∧
      compute_premium (1895/100) (1712/100) = Except.ok (4575/428) ∧
      |(4575/428 : ℚ) - 10689252336448598/1000000000000000| ≤
        1/1000000000 * (4575/428) := by
  refine ⟨?_, ?_, ?_, ?_⟩
  · simp [compute_premium_spec, ho.not_le, hr.not_le]
  · rw [← one_lt_div hr]
    constructor
    · intro h; nlinarith
    · intro h; nlinarith
  · norm_num [compute_premium_spec]
  · rw [abs_of_nonneg (by norm_num)]
    norm_num

/-- Witness for C2 at `o = 2 > r = 1`. -/
theorem c2_premium_formula_witness :
    compute_premium 2 1 = Except.ok ((2 / 1 - 1) * 100) ∧
      (0 < ((2:ℚ) / 1 - 1) * 100 ↔ (1:ℚ) < 2) ∧
      compute_premium (1895/100) (1712/100) = Except.ok (4575/428) ∧
      |(4575/428 : ℚ) - 10689252336448598/1000000000000000| ≤
        1/1000000000 * (4575/428) :=
  c2_premium_formula 2 1 (by norm_num) (by norm_num)

/-- Claim C3 counterexample: `compute_spread(18.70, 18.95)` equals
`-(500/379) = -1.31926121372031662…`, which is NOT within `1e-9` relative
tolerance of the value `-1.3184584178498851` asserted by the spec. -/
theorem c3_counterexample :
    compute_spread (1870/100) (1895/100) = Except.ok (-(500/379)) ∧
      1/1000000000 * (13184584178498851/10000000000000000) <
        |(-(500/379) : ℚ) - -(13184584178498851/10000000000000000)| := by
  constructor
  · norm_num [compute_spread_spec]
  · rw [abs_of_nonpos (by norm_num)]
    norm_num

/-- Claim C3 (amended): for positive rationals, `compute_spread(b, s)`
returns `((b - s) / s) * 100`; the result is negative exactly when `s`
exceeds `b` (an expected sign, not an error); and
`compute_spread(18.70, 18.95) = -(500/379)`, which is within `1e-9` relative
tolerance of `-1.3192612137203166`. -/
theorem c3_spread_formula (b s : ℚ) (hb : 0 < b) (hs : 0 < s) :
    compute_spread b s = Except.ok ((b - s) / s * 100) ∧
      ((b - s) / s * 100 < 0 ↔ b < s) ∧
      compute_spread (1870/100) (1895/100) = Except.ok (-(500/379)) ∧
      |(-(500/379) : ℚ) - -(13192612137203166/10000000000000000)| ≤
        1/1000000000 * (500/379) := by
  refine ⟨?_, ?_, ?_, ?_⟩
  · simp [compute_spread_spec, hb.not_le, hs.not_le]
  · constructor
    · intro h
      by_contra hc
      push_neg at hc
      have hnum : 0 ≤ b - s := by linarith
      nlinarith [div_nonneg hnum hs.le]
    · intro h
      have hnum : b - s < 0 := by linarith
      nlinarith [div_neg_of_neg_of_pos hnum hs]
  · norm_num [compute_spread_spec]
  · rw [abs_of_nonpos (by norm_num)]
    norm_num

/-- Witness for C3 at `b = 1 < s = 2`. -/
theorem c3_spread_formula_witness :
    compute_spread 1 2 = Except.ok (((1:ℚ) - 2) / 2 * 100) ∧
      (((1:ℚ) - 2) / 2 * 100 < 0 ↔ (1:ℚ) < 2) ∧
      compute_spread (1870/100) (1895/100) = Except.ok (-(500/379)) ∧
      |(-(500/379) : ℚ) - -(13192612137203166/10000000000000000)| ≤
        1/1000000000 * (500/379) :=
  c3_spread_formula 1 2 (by norm_num) (by norm_num)

/-- Claim C4: for every rational `x ≤ 0`, `_validate_positive` and every
public operation (`compute_premium`, `compute_spread`, `compute_premiums`)
fail with the validation error whenever any rate argument equals `x`; every
strictly positive value is accepted; and exactly zero is always rejected. -/
theorem c4_positivity (x : ℚ) (hx : x ≤ 0) :
    (∀ name, validate_positive name (.float (.fin x)) =
        Except.error (.mustBePositive name (.fin x))) ∧
    (∀ r, (∃ e, compute_premium x r = Except.error e) ∧
          (∃ e, compute_premium r x = Except.error e)) ∧
    (∀ r, (∃ e, compute_spread x r = Except.error e) ∧
          (∃ e, compute_spread r x = Except.error e)) ∧
    (∀ a b c dec,
        (∃ e, compute_premiums x a b c dec = Except.error e) ∧
        (∃ e, compute_premiums a x b c dec = Except.error e) ∧
        (∃ e, compute_premiums a b x c dec = Except.error e) ∧
        (∃ e, compute_premiums a b c x dec = Except.error e)) ∧
    (∀ p : ℚ, 0 < p → ∀ name,
        validate_positive name (.float (.fin p)) = Except.ok ()) ∧
    (∀ name, ∃ e, validate_positive name (.float (.fin 0)) =
        Except.error e) := by
  refine ⟨fun name => validate_positive_err name x hx,
    fun r => ⟨compute_premium_err_of_nonpos x r (Or.inl hx),
      compute_premium_err_of_nonpos r x (Or.inr hx)⟩,
    fun r => ⟨compute_spread_err_of_nonpos x r (Or.inl hx),
      compute_spread_err_of_nonpos r x (Or.inr hx)⟩,
    fun a b c dec =>
      ⟨compute_premiums_err_of_nonpos x a b c dec (Or.inl hx),
       compute_premiums_err_of_nonpos a x b c dec (Or.inr (Or.inl hx)),
       compute_premiums_err_of_nonpos a b x c dec
         (Or.inr (Or.inr (Or.inl hx))),
       compute_premiums_err_of_nonpos a b c x dec
         (Or.inr (Or.inr (Or.inr hx)))⟩,
    fun p hp name => validate_positive_ok name p hp,
    fun name => ⟨_, validate_positive_err name 0 le_rfl⟩⟩

/-- Witness for C4: `-1` is rejected by every operation and the boundary
value `1e-12` is accepted. -/
theorem c4_positivity_witness :
    validate_positive "rate" (.float (.fin (-1))) =
      Except.error (.mustBePositive "rate" (.fin (-1))) ∧
    (∃ e, compute_premiums (-1) 1 1 1 Option.none = Except.error e) ∧
    validate_positive "rate" (.float (.fin (1/1000000000000))) =
      Except.ok () :=
  ⟨(c4_positivity (-1) (by norm_num)).1 "rate",
   ((c4_positivity (-1) (by norm_num)).2.2.2.1 1 1 1 Option.none).1,
   (c4_positivity (-1) (by norm_num)).2.2.2.2.1 (1/1000000000000)
     (by norm_num) "rate"⟩

/-- Claim C5 counterexample: with the spec's example inputs and
`decimals = 2`, `compute_premiums` returns fields `10.69`, `9.23`, `-1.32`;
the buy-premium field is `9.23`, not the `9.24` the spec asserts. -/
theorem c5_counterexample :
    compute_premiums (1895/100) (1870/100) (1712/100) (1712/100)
        (Option.some 2) =
      Except.ok ⟨1069/100, 923/100, -(33/25)⟩ ∧
    (923/100 : ℚ) ≠ 924/100 := by
  constructor
  · rw [compute_premiums_spec]
    norm_num [maybe_round, pyRound_concrete_sell, pyRound_concrete_buy,
      pyRound_concrete_spread]
  · norm_num

/-- Claim C5 (amended): when `decimals` is provided, `compute_premiums`
rounds each of the three fields of the unrounded result with the same
rounding function `pyRound`, applied after the raw values are computed from
the unrounded inputs; on the spec's example with `decimals = 2` the fields
are `10.69`, `9.23` and `-1.32`. -/
theorem c5_rounding_terminal (s b bid ask : ℚ) (hs : 0 < s) (hb : 0 < b)
    (hbid : 0 < bid) (hask : 0 < ask) (d : ℕ) :
    (∀ sp bp sd,
        compute_premiums s b bid ask Option.none = Except.ok ⟨sp, bp, sd⟩ →
        compute_premiums s b bid ask (Option.some d) =
          Except.ok ⟨pyRound sp d, pyRound bp d, pyRound sd d⟩) ∧
    compute_premiums (1895/100) (1870/100) (1712/100) (1712/100)
        (Option.some 2) = Except.ok ⟨1069/100, 923/100, -(33/25)⟩ := by
  constructor
  · intro sp bp sd hok
    rw [compute_premiums_spec] at hok ⊢
    simp only [hs.not_le, hb.not_le, hbid.not_le, hask.not_le, if_false,
      maybe_round, Except.ok.injEq, Premiums.mk.injEq] at hok ⊢
    obtain ⟨h1, h2, h3⟩ := hok
    exact ⟨by rw [h1], by rw [h2], by rw [h3]⟩
  · rw [compute_premiums_spec]
    norm_num [maybe_round, pyRound_concrete_sell, pyRound_concrete_buy,
      pyRound_concrete_spread]

/-- Witness for C5 at the spec's example rates with `decimals = 2`. -/
theorem c5_rounding_terminal_witness :
    compute_premiums (1895/100) (1870/100) (1712/100) (1712/100)
        (Option.some 2) = Except.ok ⟨1069/100, 923/100, -(33/25)⟩ :=
  (c5_rounding_terminal 1 1 1 1 (by norm_num) (by norm_num) (by norm_num)
    (by norm_num) 0).2

/-- Claim C6: `_validate_positive` ACCEPTS `nan` and `+inf` (Python's
`v <= 0` is `False` for both), while the spec requires them to be rejected;
`-inf` and `None` are rejected. This exhibits the code bug behind C6. -/
theorem c6_nonfinite_accepted :
    validate_positive "rate" (.float .nan) = Except.ok () ∧
    validate_positive "rate" (.float .posInf) = Except.ok () ∧
    validate_positive "rate" (.float .negInf) =
      Except.error (.mustBePositive "rate" .negInf) ∧
    validate_positive "rate" .none =
      Except.error (.mustNotBeNone "rate") :=
  ⟨rfl, rfl, rfl, rfl⟩

/-- Claim C7 counterexample: for a non-numeric input (e.g. the string
`"abc"`), the raised error's message names the parameter but does NOT carry
the offending value, contradicting the claim for that input class. -/
theorem c7_counterexample :
    validate_positive "sell_rate" (PyValue.nonNumeric "abc") =
      Except.error (.mustBeANumber "sell_rate") ∧
    (InvalidRateError.mustBeANumber "sell_rate").message =
      "sell_rate must be a number" ∧
    ¬ ("abc".toList <:+:
        (InvalidRateError.mustBeANumber "sell_rate").message.toList) :=
  ⟨rfl, rfl, by decide⟩

/-- Claim C7 (amended): for zero or negative inputs the error message
carries both the parameter name and the offending value; for missing or
non-numeric inputs it carries the parameter name; in particular
`compute_premiums(sell_rate=0.0, buy_rate=18.70, fx_bid=17.12,
fx_ask=17.12)` fails with an error naming `sell_rate` and the value `0.0`. -/
theorem c7_error_identification (name : String) (q : ℚ) (h : q ≤ 0) :
    validate_positive name (.float (.fin q)) =
      Except.error (.mustBePositive name (.fin q)) ∧
    (InvalidRateError.mustBePositive name (.fin q)).message =
      name ++ " must be > 0; got " ++ pyFloatStr (.fin q) ∧
    (InvalidRateError.mustNotBeNone name).message =
      name ++ " must not be None" ∧
    (InvalidRateError.mustBeANumber name).message =
      name ++ " must be a number" ∧
    compute_premiums 0 (1870/100) (1712/100) (1712/100) Option.none =
      Except.error (.mustBePositive "sell_rate" (.fin 0)) ∧
    (InvalidRateError.mustBePositive "sell_rate" (.fin 0)).message =
      "sell_rate must be > 0; got 0.0" := by
  refine ⟨validate_positive_err name q h, rfl, rfl, rfl, ?_, by decide⟩
  rw [compute_premiums_spec]
  norm_num

/-- Witness for C7 at `name = "sell_rate"`, `q = 0`. -/
theorem c7_error_identification_witness :
    validate_positive "sell_rate" (.float (.fin 0)) =
      Except.error (.mustBePositive "sell_rate" (.fin 0)) ∧
    (InvalidRateError.mustBePositive "sell_rate" (.fin 0)).message =
      "sell_rate" ++ " must be > 0; got " ++ pyFloatStr (.fin 0) ∧
    (InvalidRateError.mustNotBeNone "sell_rate").message =
      "sell_rate" ++ " must not be None" ∧
    (InvalidRateError.mustBeANumber "sell_rate").message =
      "sell_rate" ++ " must be a number" ∧
    compute_premiums 0 (1870/100) (1712/100) (1712/100) Option.none =
      Except.error (.mustBePositive "sell_rate" (.fin 0)) ∧
    (InvalidRateError.mustBePositive "sell_rate" (.fin 0)).message =
      "sell_rate must be > 0; got 0.0" :=
  c7_error_identification "sell_rate" 0 le_rfl

/-- Claim C8 counterexample: at the boundary `|v| = 0.5 * 10^-decimals` the
round-half-to-even rule CAN change the sign: the spread of
`compute_premiums(200, 201, 1, 1)` is exactly `1/2`, and with `decimals = 0`
it rounds to `0` (tie, even), so `sign(rounded) ≠ sign(unrounded)` even
though `|unrounded| ≥ 0.5 * 10^-0`. -/
theorem c8_counterexample :
    compute_premiums 200 201 1 1 Option.none =
      Except.ok ⟨19900, 20000, 1/2⟩ ∧
    compute_premiums 200 201 1 1 (Option.some 0) =
      Except.ok ⟨19900, 20000, 0⟩ ∧
    (1/2 : ℚ) * (1/10 ^ (0:ℕ)) ≤ |(1/2 : ℚ)| ∧
    0 < (1/2 : ℚ) ∧ ¬ 0 < maybe_round (1/2) (Option.some 0) := by
  have p1 : pyRound 19900 0 = 19900 := by
    rw [pyRound_eq_of_lt 19900 0 19900 (by rw [Int.floor_eq_iff]; norm_num)
      (by norm_num)]
    norm_num
  have p2 : pyRound 20000 0 = 20000 := by
    rw [pyRound_eq_of_lt 20000 0 20000 (by rw [Int.floor_eq_iff]; norm_num)
      (by norm_num)]
    norm_num
  refine ⟨?_, ?_, by rw [abs_of_pos (by norm_num : (0:ℚ) < 1/2)]; norm_num, by norm_num, ?_⟩
  · rw [compute_premiums_spec]
    norm_num [maybe_round]
  · rw [compute_premiums_spec]
    norm_num [maybe_round, p1, p2, pyRound_half_zero]
  · rw [show maybe_round (1/2) (Option.some 0) = pyRound (1/2) 0 from rfl,
      pyRound_half_zero]
    norm_num

/-- Claim C8 (amended): rounding in `compute_premiums` preserves the sign of
a field value `v` whenever `|v|` is STRICTLY greater than
`0.5 * 10^-decimals` (at exact equality a half-to-even tie can round a
positive value to zero). -/
theorem c8_sign_preserved (v : ℚ) (d : ℕ) (h : 1/2 * (1/10 ^ d) < |v|) :
    maybe_round v (Option.some d) = pyRound v d ∧
    (0 < v → 0 < pyRound v d) ∧ (v < 0 → pyRound v d < 0) := by
  have hpow : (0:ℚ) < 10 ^ d := by positivity
  have hcancel : (1/(10:ℚ)^d) * 10 ^ d = 1 := by field_simp
  refine ⟨rfl, ?_, ?_⟩
  · intro hv
    rw [abs_of_pos hv] at h
    have h2 := mul_lt_mul_of_pos_right h hpow
    rw [mul_assoc, hcancel, mul_one] at h2
    have h1 : 1 ≤ rndHalfEven (v * 10 ^ d) := rndHalfEven_ge_one _ h2
    have hq : (0:ℚ) < (rndHalfEven (v * 10 ^ d) : ℚ) := by
      exact_mod_cast (by omega : (0:ℤ) < rndHalfEven (v * 10 ^ d))
    exact div_pos hq hpow
  · intro hv
    rw [abs_of_neg hv] at h
    have h2 := mul_lt_mul_of_pos_right h hpow
    rw [mul_assoc, hcancel, mul_one] at h2
    have h3 : v * 10 ^ d < -(1/2) := by
      rw [neg_mul] at h2
      linarith
    have h1 : rndHalfEven (v * 10 ^ d) ≤ -1 := rndHalfEven_le_neg_one _ h3
    have hq : (rndHalfEven (v * 10 ^ d) : ℚ) < 0 := by
      exact_mod_cast (by omega : rndHalfEven (v * 10 ^ d) < (0:ℤ))
    exact div_neg_of_neg_of_pos hq hpow

/-- Witness for C8 at `v = 1`, `decimals = 0`. -/
theorem c8_sign_preserved_witness :
    maybe_round (1:ℚ) (Option.some 0) = pyRound 1 0 ∧
    (0 < (1:ℚ) → 0 < pyRound (1:ℚ) 0) ∧
    ((1:ℚ) < 0 → pyRound (1:ℚ) 0 < 0) :=
  c8_sign_preserved 1 0 (by norm_num)

/-- Claim C9: `compute_premiums` is deterministic — its result is a function
of its five arguments alone, so two calls with identical inputs yield
identical results (the embedding is pure, mirroring the source, which reads
no state and mutates nothing: the dataclass is frozen). -/
theorem c9_deterministic (s b bid ask : ℚ) (d : Option ℕ)
    (s' b' bid' ask' : ℚ) (d' : Option ℕ) (hs : s = s') (hb : b = b')
    (hbid : bid = bid') (hask : ask = ask') (hd : d = d') :
    compute_premiums s b bid ask d = compute_premiums s' b' bid' ask' d' := by
  rw [hs, hb, hbid, hask, hd]

/-- Witness for C9 at the spec's example rates. -/
theorem c9_deterministic_witness :
    compute_premiums (1895/100) (1870/100) (1712/100) (1712/100)
        Option.none =
      compute_premiums (1895/100) (1870/100) (1712/100) (1712/100)
        Option.none :=
  c9_deterministic (1895/100) (1870/100) (1712/100) (1712/100) Option.none
    (1895/100) (1870/100) (1712/100) (1712/100) Option.none
    rfl rfl rfl rfl rfl

/-- Claim C10: `compute_premiums` validates in the fixed order `sell_rate`,
`buy_rate`, `fx_bid`, `fx_ask`, and the error raised names the first invalid
argument in that order. -/
theorem c10_validation_order (s b bid ask : ℚ) (d : Option ℕ) :
    (s ≤ 0 → compute_premiums s b bid ask d =
        Except.error (.mustBePositive "sell_rate" (.fin s))) ∧
    (0 < s → b ≤ 0 → compute_premiums s b bid ask d =
        Except.error (.mustBePositive "buy_rate" (.fin b))) ∧
    (0 < s → 0 < b → bid ≤ 0 → compute_premiums s b bid ask d =
        Except.error (.mustBePositive "fx_bid" (.fin bid))) ∧
    (0 < s → 0 < b → 0 < bid → ask ≤ 0 → compute_premiums s b bid ask d =
        Except.error (.mustBePositive "fx_ask" (.fin ask))) := by
  refine ⟨fun h1 => ?_, fun h1 h2 => ?_, fun h1 h2 h3 => ?_,
    fun h1 h2 h3 h4 => ?_⟩
  · rw [compute_premiums_spec]
    simp [h1]
  · rw [compute_premiums_spec]
    simp [h1.not_le, h2]
  · rw [compute_premiums_spec]
    simp [h1.not_le, h2.not_le, h3]
  · rw [compute_premiums_spec]
    simp [h1.not_le, h2.not_le, h3.not_le, h4]

/-- Witness for C10: with `sell_rate` and `fx_ask` both zero, the error
names `sell_rate`. -/
theorem c10_validation_order_witness :
    compute_premiums 0 (1870/100) (1712/100) 0 Option.none =
      Except.error (.mustBePositive "sell_rate" (.fin 0)) :=
  (c10_validation_order 0 (1870/100) (1712/100) 0 Option.none).1 le_rfl

end StablecoinPremiums
